import Mathlib

/-!
Shallow embedding of the scene-graph / rigid-body core of the repository
(`src/include/Object3D.h`, `src/src/Object3D.cpp`,
`src/include/TranslationAnimation.h`).  Floating-point (`float`, glm
vectors and matrices) is idealised as real arithmetic.
-/

/-- A glm `vec3`, idealised over ℝ. -/
structure Vec3 where
  x : ℝ
  y : ℝ
  z : ℝ

/-- Componentwise vector addition (glm `operator+`). -/
def Vec3.add (a b : Vec3) : Vec3 := ⟨a.x + b.x, a.y + b.y, a.z + b.z⟩

/-- Scalar multiple `r * v` (glm vector-scalar `operator*`). -/
def Vec3.smul (r : ℝ) (v : Vec3) : Vec3 := ⟨r * v.x, r * v.y, r * v.z⟩

/-- Componentwise (Hadamard) product, glm `vec3 * vec3`. -/
def Vec3.hadamard (a b : Vec3) : Vec3 := ⟨a.x * b.x, a.y * b.y, a.z * b.z⟩

/-- Vector negation (glm unary `operator-`). -/
def Vec3.neg (v : Vec3) : Vec3 := ⟨-v.x, -v.y, -v.z⟩

/-- Componentwise division of a vector by a scalar (glm `vec3 / float`). -/
noncomputable def Vec3.sdiv (v : Vec3) (r : ℝ) : Vec3 := ⟨v.x / r, v.y / r, v.z / r⟩

/-- glm `length`: the Euclidean norm. -/
noncomputable def Vec3.length (v : Vec3) : ℝ :=
  Real.sqrt (v.x ^ 2 + v.y ^ 2 + v.z ^ 2)

/-- glm `normalize`: the vector divided by its length. -/
noncomputable def Vec3.normalize (v : Vec3) : Vec3 :=
  Vec3.smul (1 / v.length) v

/-- A glm `vec4` (used only for the material constants). -/
structure Vec4 where
  x : ℝ
  y : ℝ
  z : ℝ
  w : ℝ

/-- A mesh handle.  Meshes are opaque to the core (owned by the rendering
collaborator); only their identity matters here. -/
structure Mesh3D where
  id : Nat
  deriving DecidableEq

/-- 4×4 matrices over ℝ, standing in for glm `mat4`. -/
abbrev Mat4 := Matrix (Fin 4) (Fin 4) ℝ

/-- `Object3D.h` line 18: `GRAVITATIONAL_ACCELERATION = glm::vec3(0, -38, 0)`. -/
def gravityAccel : Vec3 := ⟨0, -38, 0⟩

/-- The non-recursive fields of an `Object3D` (`Object3D.h` lines 8–34,
children excluded; they live in the tree type below). -/
structure ObjState where
  meshes : List Mesh3D
  position : Vec3
  orientation : Vec3
  scale : Vec3
  center : Vec3
  velocity : Vec3
  acceleration : Vec3
  rot_velocity : Vec3
  rot_acceleration : Vec3
  mass : ℝ
  forces : List Vec3
  material : Vec4
  baseTransform : Mat4
  name : String

/-- `Object3D::addForce` (`Object3D.cpp` 141–143): push the force onto the
back of the list. -/
def addForce (s : ObjState) (f : Vec3) : ObjState :=
  { s with forces := s.forces ++ [f] }

/-- `Object3D::clearForces` (`Object3D.cpp` 149–153): clear, then push back
gravity times the current mass. -/
def clearForces (s : ObjState) : ObjState :=
  { s with forces := [Vec3.smul s.mass gravityAccel] }

/-- `Object3D::setMass` (`Object3D.cpp` 135–139): set the mass, then
`clearForces()` so the baseline gravity term uses the new mass. -/
def setMass (s : ObjState) (m : ℝ) : ObjState :=
  clearForces { s with mass := m }

/-- `Object3D::tick` lines 156–173, the ground-contact branch.  `mu` is the
friction coefficient `MU`; its defining header is not part of `src/`, so
the coefficient is kept as a parameter.  On the ground (`position.y == 0`):
add the friction force opposing the horizontal velocity direction; if
`velocity.x == 0`, clear the force list back to the gravity baseline;
finally add the normal force `-gravity * mass`. -/
noncomputable def groundForces (mu : ℝ) (s : ObjState) : ObjState :=
  if s.position.y = 0 then
    let muX := |gravityAccel.y * mu|
    let muZ := |gravityAccel.y * mu|
    let direction := Vec3.normalize ⟨s.velocity.x, 0, s.velocity.z⟩
    let xSign : ℝ := if s.velocity.x < 0 then 1 else -1
    let zSign : ℝ := if s.velocity.z < 0 then 1 else -1
    let sA := addForce s
      ⟨|direction.x| * xSign * muX * s.mass, 0, |direction.z| * zSign * muZ * s.mass⟩
    let sB := if sA.velocity.x = 0 then clearForces sA else sA
    addForce sB (Vec3.smul sB.mass (Vec3.neg gravityAccel))
  else s

/-- `Object3D::tick` lines 176–182: sum the forces into the net force and,
when `mass > 0`, set acceleration to `netForce / mass`. -/
noncomputable def applyNetForce (s : ObjState) : ObjState :=
  let netForce := s.forces.foldl Vec3.add ⟨0, 0, 0⟩
  if 0 < s.mass then { s with acceleration := Vec3.sdiv netForce s.mass } else s

/-- `Object3D::tick` lines 187–188: if `position.y < 0` and `mass != 0`,
snap the position back to the ground plane. -/
noncomputable def groundSnap (s : ObjState) : ObjState :=
  if s.position.y < 0 ∧ s.mass ≠ 0 then
    { s with position := ⟨s.position.x, 0, s.position.z⟩ }
  else s

/-- `Object3D::tick` lines 191–192: Euler integration,
`velocity += acceleration * dt; position += velocity * dt`. -/
def integrate (dt : ℝ) (s : ObjState) : ObjState :=
  let s := { s with velocity := s.velocity.add (Vec3.smul dt s.acceleration) }
  { s with position := s.position.add (Vec3.smul dt s.velocity) }

/-- `Object3D::tick` lines 194–195: clamp `position.y` up to 0. -/
noncomputable def clampY (s : ObjState) : ObjState :=
  if s.position.y < 0 then { s with position := ⟨s.position.x, 0, s.position.z⟩ }
  else s

/-- The state transformation of one `Object3D::tick` call on the node's own
fields (`Object3D.cpp` 155–196), children excluded: ground branch, net
force, `clearForces`, ground snap, integration, final clamp.
`buildModelMatrix()` at line 196 is `const` and leaves the state alone. -/
noncomputable def tickState (mu dt : ℝ) (s : ObjState) : ObjState :=
  clampY (integrate dt (groundSnap (clearForces (applyNetForce (groundForces mu s)))))

/-- The `Object3D` tree: the own fields plus the recursively owned
children (`Object3D.h` line 9). -/
inductive Object3D where
  | node : ObjState → List Object3D → Object3D

/-- The node's own (non-child) fields. -/
def Object3D.state : Object3D → ObjState
  | .node s _ => s

/-- The node's children. -/
def Object3D.children : Object3D → List Object3D
  | .node _ cs => cs

mutual

/-- `Object3D::tick` (`Object3D.cpp` 155–202): transform the own state,
then tick every child with the same `dt`. -/
noncomputable def Object3D.tick (mu dt : ℝ) : Object3D → Object3D
  | .node s cs => .node (tickState mu dt s) (Object3D.tickList mu dt cs)

/-- The `for (auto& c : m_children) c.tick(dt);` loop of `Object3D::tick`. -/
noncomputable def Object3D.tickList (mu dt : ℝ) : List Object3D → List Object3D
  | [] => []
  | c :: cs => Object3D.tick mu dt c :: Object3D.tickList mu dt cs

end

/-- `Object3D::Object3D(std::vector<Mesh3D>&& meshes, const glm::mat4&
baseTransform)` (`Object3D.cpp` 21–28): member defaults, mass 1, and the
gravity force pushed onto the (empty) force list.  The one-argument
constructor (lines 17–19) delegates here with the identity base transform. -/
def mkObject3D (meshes : List Mesh3D) (baseTransform : Mat4) : Object3D :=
  .node
    { meshes := meshes
      position := ⟨0, 0, 0⟩
      orientation := ⟨0, 0, 0⟩
      scale := ⟨1, 1, 1⟩
      center := ⟨0, 0, 0⟩
      velocity := ⟨0, 0, 0⟩
      acceleration := ⟨0, 0, 0⟩
      rot_velocity := ⟨0, 0, 0⟩
      rot_acceleration := ⟨0, 0, 0⟩
      mass := 1
      forces := [Vec3.smul 1 gravityAccel]
      material := ⟨0.1, 1.0, 0.3, 4⟩
      baseTransform := baseTransform
      name := "" }
    []

/-! ### Frame lemmas for the tick phases -/

@[simp] theorem addForce_velocity (s : ObjState) (f : Vec3) : (addForce s f).velocity = s.velocity := rfl
@[simp] theorem addForce_position (s : ObjState) (f : Vec3) : (addForce s f).position = s.position := rfl
@[simp] theorem addForce_acceleration (s : ObjState) (f : Vec3) : (addForce s f).acceleration = s.acceleration := rfl
@[simp] theorem addForce_mass (s : ObjState) (f : Vec3) : (addForce s f).mass = s.mass := rfl
@[simp] theorem clearForces_velocity (s : ObjState) : (clearForces s).velocity = s.velocity := rfl
@[simp] theorem clearForces_position (s : ObjState) : (clearForces s).position = s.position := rfl
@[simp] theorem clearForces_acceleration (s : ObjState) : (clearForces s).acceleration = s.acceleration := rfl
@[simp] theorem clearForces_mass (s : ObjState) : (clearForces s).mass = s.mass := rfl

theorem groundForces_velocity (mu : ℝ) (s : ObjState) : (groundForces mu s).velocity = s.velocity := by
  simp only [groundForces, addForce, clearForces]
  split_ifs <;> rfl

theorem groundForces_position (mu : ℝ) (s : ObjState) : (groundForces mu s).position = s.position := by
  simp only [groundForces, addForce, clearForces]
  split_ifs <;> rfl

theorem groundForces_acceleration (mu : ℝ) (s : ObjState) : (groundForces mu s).acceleration = s.acceleration := by
  simp only [groundForces, addForce, clearForces]
  split_ifs <;> rfl

theorem groundForces_mass (mu : ℝ) (s : ObjState) : (groundForces mu s).mass = s.mass := by
  simp only [groundForces, addForce, clearForces]
  split_ifs <;> rfl

theorem applyNetForce_velocity (s : ObjState) : (applyNetForce s).velocity = s.velocity := by
  simp only [applyNetForce]
  split_ifs <;> rfl

theorem applyNetForce_position (s : ObjState) : (applyNetForce s).position = s.position := by
  simp only [applyNetForce]
  split_ifs <;> rfl

theorem applyNetForce_mass (s : ObjState) : (applyNetForce s).mass = s.mass := by
  simp only [applyNetForce]
  split_ifs <;> rfl

theorem applyNetForce_forces (s : ObjState) : (applyNetForce s).forces = s.forces := by
  simp only [applyNetForce]
  split_ifs <;> rfl

theorem groundSnap_velocity (s : ObjState) : (groundSnap s).velocity = s.velocity := by
  simp only [groundSnap]
  split_ifs <;> rfl

theorem groundSnap_acceleration (s : ObjState) : (groundSnap s).acceleration = s.acceleration := by
  simp only [groundSnap]
  split_ifs <;> rfl

theorem groundSnap_mass (s : ObjState) : (groundSnap s).mass = s.mass := by
  simp only [groundSnap]
  split_ifs <;> rfl

theorem clampY_velocity (s : ObjState) : (clampY s).velocity = s.velocity := by
  simp only [clampY]
  split_ifs <;> rfl

theorem clampY_acceleration (s : ObjState) : (clampY s).acceleration = s.acceleration := by
  simp only [clampY]
  split_ifs <;> rfl

theorem clampY_mass (s : ObjState) : (clampY s).mass = s.mass := by
  simp only [clampY]
  split_ifs <;> rfl

/-- The velocity produced by one `tickState` is the starting velocity plus
`dt` times the acceleration computed from the net force. -/
theorem tickState_velocity (mu dt : ℝ) (s : ObjState) :
    (tickState mu dt s).velocity
      = s.velocity.add (Vec3.smul dt (applyNetForce (groundForces mu s)).acceleration) := by
  simp only [tickState, clampY_velocity, integrate, groundSnap_velocity, groundSnap_acceleration,
    clearForces_velocity, clearForces_acceleration, applyNetForce_velocity, groundForces_velocity]

/-- The acceleration produced by one `tickState` is the one computed by the
net-force phase. -/
theorem tickState_acceleration (mu dt : ℝ) (s : ObjState) :
    (tickState mu dt s).acceleration = (applyNetForce (groundForces mu s)).acceleration := by
  simp only [tickState, clampY_acceleration, integrate, groundSnap_acceleration,
    clearForces_acceleration]

theorem groundForces_orientation (mu : ℝ) (s : ObjState) : (groundForces mu s).orientation = s.orientation := by
  simp only [groundForces, addForce, clearForces]
  split_ifs <;> rfl

theorem applyNetForce_orientation (s : ObjState) : (applyNetForce s).orientation = s.orientation := by
  simp only [applyNetForce]
  split_ifs <;> rfl

theorem groundSnap_orientation (s : ObjState) : (groundSnap s).orientation = s.orientation := by
  simp only [groundSnap]
  split_ifs <;> rfl

theorem clampY_orientation (s : ObjState) : (clampY s).orientation = s.orientation := by
  simp only [clampY]
  split_ifs <;> rfl

theorem clearForces_orientation (s : ObjState) : (clearForces s).orientation = s.orientation := rfl

theorem addForce_orientation (s : ObjState) (f : Vec3) : (addForce s f).orientation = s.orientation := rfl

theorem integrate_orientation (dt : ℝ) (s : ObjState) : (integrate dt s).orientation = s.orientation := rfl

theorem tickState_orientation (mu dt : ℝ) (s : ObjState) : (tickState mu dt s).orientation = s.orientation := by
  simp only [tickState, clampY_orientation, integrate_orientation, groundSnap_orientation, clearForces_orientation,
    applyNetForce_orientation, groundForces_orientation]

theorem groundForces_scale (mu : ℝ) (s : ObjState) : (groundForces mu s).scale = s.scale := by
  simp only [groundForces, addForce, clearForces]
  split_ifs <;> rfl

theorem applyNetForce_scale (s : ObjState) : (applyNetForce s).scale = s.scale := by
  simp only [applyNetForce]
  split_ifs <;> rfl

theorem groundSnap_scale (s : ObjState) : (groundSnap s).scale = s.scale := by
  simp only [groundSnap]
  split_ifs <;> rfl

theorem clampY_scale (s : ObjState) : (clampY s).scale = s.scale := by
  simp only [clampY]
  split_ifs <;> rfl

theorem clearForces_scale (s : ObjState) : (clearForces s).scale = s.scale := rfl

theorem addForce_scale (s : ObjState) (f : Vec3) : (addForce s f).scale = s.scale := rfl

theorem integrate_scale (dt : ℝ) (s : ObjState) : (integrate dt s).scale = s.scale := rfl

theorem tickState_scale (mu dt : ℝ) (s : ObjState) : (tickState mu dt s).scale = s.scale := by
  simp only [tickState, clampY_scale, integrate_scale, groundSnap_scale, clearForces_scale,
    applyNetForce_scale, groundForces_scale]

theorem groundForces_center (mu : ℝ) (s : ObjState) : (groundForces mu s).center = s.center := by
  simp only [groundForces, addForce, clearForces]
  split_ifs <;> rfl

theorem applyNetForce_center (s : ObjState) : (applyNetForce s).center = s.center := by
  simp only [applyNetForce]
  split_ifs <;> rfl

theorem groundSnap_center (s : ObjState) : (groundSnap s).center = s.center := by
  simp only [groundSnap]
  split_ifs <;> rfl

theorem clampY_center (s : ObjState) : (clampY s).center = s.center := by
  simp only [clampY]
  split_ifs <;> rfl

theorem clearForces_center (s : ObjState) : (clearForces s).center = s.center := rfl

theorem addForce_center (s : ObjState) (f : Vec3) : (addForce s f).center = s.center := rfl

theorem integrate_center (dt : ℝ) (s : ObjState) : (integrate dt s).center = s.center := rfl

theorem tickState_center (mu dt : ℝ) (s : ObjState) : (tickState mu dt s).center = s.center := by
  simp only [tickState, clampY_center, integrate_center, groundSnap_center, clearForces_center,
    applyNetForce_center, groundForces_center]

theorem groundForces_baseTransform (mu : ℝ) (s : ObjState) : (groundForces mu s).baseTransform = s.baseTransform := by
  simp only [groundForces, addForce, clearForces]
  split_ifs <;> rfl

theorem applyNetForce_baseTransform (s : ObjState) : (applyNetForce s).baseTransform = s.baseTransform := by
  simp only [applyNetForce]
  split_ifs <;> rfl

theorem groundSnap_baseTransform (s : ObjState) : (groundSnap s).baseTransform = s.baseTransform := by
  simp only [groundSnap]
  split_ifs <;> rfl

theorem clampY_baseTransform (s : ObjState) : (clampY s).baseTransform = s.baseTransform := by
  simp only [clampY]
  split_ifs <;> rfl

theorem clearForces_baseTransform (s : ObjState) : (clearForces s).baseTransform = s.baseTransform := rfl

theorem addForce_baseTransform (s : ObjState) (f : Vec3) : (addForce s f).baseTransform = s.baseTransform := rfl

theorem integrate_baseTransform (dt : ℝ) (s : ObjState) : (integrate dt s).baseTransform = s.baseTransform := rfl

theorem tickState_baseTransform (mu dt : ℝ) (s : ObjState) : (tickState mu dt s).baseTransform = s.baseTransform := by
  simp only [tickState, clampY_baseTransform, integrate_baseTransform, groundSnap_baseTransform, clearForces_baseTransform,
    applyNetForce_baseTransform, groundForces_baseTransform]

theorem integrate_mass (dt : ℝ) (s : ObjState) : (integrate dt s).mass = s.mass := rfl

theorem tickState_mass (mu dt : ℝ) (s : ObjState) : (tickState mu dt s).mass = s.mass := by
  simp only [tickState, clampY_mass, integrate_mass, groundSnap_mass, clearForces_mass,
    applyNetForce_mass, groundForces_mass]

theorem groundForces_rot_velocity (mu : ℝ) (s : ObjState) : (groundForces mu s).rot_velocity = s.rot_velocity := by
  simp only [groundForces, addForce, clearForces]
  split_ifs <;> rfl

theorem applyNetForce_rot_velocity (s : ObjState) : (applyNetForce s).rot_velocity = s.rot_velocity := by
  simp only [applyNetForce]
  split_ifs <;> rfl

theorem groundSnap_rot_velocity (s : ObjState) : (groundSnap s).rot_velocity = s.rot_velocity := by
  simp only [groundSnap]
  split_ifs <;> rfl

theorem clampY_rot_velocity (s : ObjState) : (clampY s).rot_velocity = s.rot_velocity := by
  simp only [clampY]
  split_ifs <;> rfl

theorem clearForces_rot_velocity (s : ObjState) : (clearForces s).rot_velocity = s.rot_velocity := rfl

theorem addForce_rot_velocity (s : ObjState) (f : Vec3) : (addForce s f).rot_velocity = s.rot_velocity := rfl

theorem integrate_rot_velocity (dt : ℝ) (s : ObjState) : (integrate dt s).rot_velocity = s.rot_velocity := rfl

theorem tickState_rot_velocity (mu dt : ℝ) (s : ObjState) : (tickState mu dt s).rot_velocity = s.rot_velocity := by
  simp only [tickState, clampY_rot_velocity, integrate_rot_velocity, groundSnap_rot_velocity, clearForces_rot_velocity,
    applyNetForce_rot_velocity, groundForces_rot_velocity]

theorem groundForces_rot_acceleration (mu : ℝ) (s : ObjState) : (groundForces mu s).rot_acceleration = s.rot_acceleration := by
  simp only [groundForces, addForce, clearForces]
  split_ifs <;> rfl

theorem applyNetForce_rot_acceleration (s : ObjState) : (applyNetForce s).rot_acceleration = s.rot_acceleration := by
  simp only [applyNetForce]
  split_ifs <;> rfl

theorem groundSnap_rot_acceleration (s : ObjState) : (groundSnap s).rot_acceleration = s.rot_acceleration := by
  simp only [groundSnap]
  split_ifs <;> rfl

theorem clampY_rot_acceleration (s : ObjState) : (clampY s).rot_acceleration = s.rot_acceleration := by
  simp only [clampY]
  split_ifs <;> rfl

theorem clearForces_rot_acceleration (s : ObjState) : (clearForces s).rot_acceleration = s.rot_acceleration := rfl

theorem addForce_rot_acceleration (s : ObjState) (f : Vec3) : (addForce s f).rot_acceleration = s.rot_acceleration := rfl

theorem integrate_rot_acceleration (dt : ℝ) (s : ObjState) : (integrate dt s).rot_acceleration = s.rot_acceleration := rfl

theorem tickState_rot_acceleration (mu dt : ℝ) (s : ObjState) : (tickState mu dt s).rot_acceleration = s.rot_acceleration := by
  simp only [tickState, clampY_rot_acceleration, integrate_rot_acceleration, groundSnap_rot_acceleration, clearForces_rot_acceleration,
    applyNetForce_rot_acceleration, groundForces_rot_acceleration]

/-- C4: Immediately after any call to `clearForces()` or `setMass(m)`, the
forces list contains exactly one element, the gravitational acceleration
constant times the node's current mass. -/
theorem claim_C4_forces_baseline_after_clear_or_setMass (s : ObjState) (m : ℝ) :
    (clearForces s).forces = [Vec3.smul s.mass gravityAccel] ∧
    (setMass s m).forces = [Vec3.smul m gravityAccel] ∧
    (setMass s m).mass = m := by
  exact ⟨rfl, rfl, rfl⟩

/-- C10: For every SpatialNode and every `dt`, `tick` leaves orientation,
scale, mass, rotation-center offset, base transform, rotational velocity
and rotational acceleration unchanged: rotational motion is never
integrated. -/
theorem claim_C10_tick_never_touches_rotational_state (mu dt : ℝ) (o : Object3D) :
    (o.tick mu dt).state.orientation = o.state.orientation ∧
    (o.tick mu dt).state.scale = o.state.scale ∧
    (o.tick mu dt).state.mass = o.state.mass ∧
    (o.tick mu dt).state.center = o.state.center ∧
    (o.tick mu dt).state.baseTransform = o.state.baseTransform ∧
    (o.tick mu dt).state.rot_velocity = o.state.rot_velocity ∧
    (o.tick mu dt).state.rot_acceleration = o.state.rot_acceleration := by
  cases o with
  | node s cs =>
    rw [Object3D.tick]
    exact ⟨tickState_orientation mu dt s, tickState_scale mu dt s, tickState_mass mu dt s,
      tickState_center mu dt s, tickState_baseTransform mu dt s,
      tickState_rot_velocity mu dt s, tickState_rot_acceleration mu dt s⟩

/-- C5: A SpatialNode with mass 0 never changes acceleration via `tick`,
whatever forces were added beforehand. -/
theorem claim_C5_zero_mass_keeps_acceleration (mu dt : ℝ) (o : Object3D)
    (h : o.state.mass = 0) :
    (o.tick mu dt).state.acceleration = o.state.acceleration := by
  cases o with
  | node s cs =>
    rw [Object3D.tick]
    show (tickState mu dt s).acceleration = s.acceleration
    rw [tickState_acceleration]
    have hm : ¬ (0 : ℝ) < (groundForces mu s).mass := by
      rw [groundForces_mass]
      exact fun hlt => absurd h (ne_of_gt hlt)
    simp only [applyNetForce, if_neg hm]
    exact groundForces_acceleration mu s

/-- A one-mesh node at the origin with the given velocity and mass and the
baseline force list; used as concrete input for the witnesses. -/
def exState (vel : Vec3) (m : ℝ) : ObjState :=
  { meshes := [⟨0⟩]
    position := ⟨0, 0, 0⟩
    orientation := ⟨0, 0, 0⟩
    scale := ⟨1, 1, 1⟩
    center := ⟨0, 0, 0⟩
    velocity := vel
    acceleration := ⟨0, 0, 0⟩
    rot_velocity := ⟨0, 0, 0⟩
    rot_acceleration := ⟨0, 0, 0⟩
    mass := m
    forces := [Vec3.smul m gravityAccel]
    material := ⟨0.1, 1.0, 0.3, 4⟩
    baseTransform := 1
    name := "" }

/-- Witness for C5: a concrete massless node. -/
theorem claim_C5_zero_mass_keeps_acceleration_witness :
    (Object3D.node (exState ⟨0, 0, 0⟩ 0) []).state.mass = 0 ∧
    ((Object3D.node (exState ⟨0, 0, 0⟩ 0) []).tick 1 1).state.acceleration
      = (Object3D.node (exState ⟨0, 0, 0⟩ 0) []).state.acceleration :=
  ⟨rfl, claim_C5_zero_mass_keeps_acceleration 1 1 _ rfl⟩

/-- After the final clamp, the y coordinate is never negative. -/
theorem clampY_y_nonneg (s : ObjState) : 0 ≤ (clampY s).position.y := by
  unfold clampY
  split_ifs with h
  · exact le_refl 0
  · exact le_of_not_lt h

/-- After one `tickState`, the y coordinate is never negative. -/
theorem tickState_y_nonneg (mu dt : ℝ) (s : ObjState) : 0 ≤ (tickState mu dt s).position.y := by
  rw [tickState]
  exact clampY_y_nonneg _

mutual

/-- Every node of the tree (the node itself and its recursive children)
has `position.y ≥ 0`. -/
def allYNonneg : Object3D → Prop
  | .node s cs => 0 ≤ s.position.y ∧ allYNonnegList cs

/-- `allYNonneg` for every tree in the list. -/
def allYNonnegList : List Object3D → Prop
  | [] => True
  | c :: cs => allYNonneg c ∧ allYNonnegList cs

end

mutual

theorem tick_allYNonneg (mu dt : ℝ) : ∀ o : Object3D, allYNonneg (Object3D.tick mu dt o)
  | .node s cs => by
    rw [Object3D.tick, allYNonneg]
    exact ⟨tickState_y_nonneg mu dt s, tickList_allYNonneg mu dt cs⟩

theorem tickList_allYNonneg (mu dt : ℝ) :
    ∀ cs : List Object3D, allYNonnegList (Object3D.tickList mu dt cs)
  | [] => by rw [Object3D.tickList, allYNonnegList]; trivial
  | c :: cs => by
    rw [Object3D.tickList, allYNonnegList]
    exact ⟨tick_allYNonneg mu dt c, tickList_allYNonneg mu dt cs⟩

end

/-- C3: For every SpatialNode, every starting state and every `dt`,
`position.y ≥ 0` holds for the node and for every node of its recursively
ticked subtree immediately after `tick(dt)`. -/
theorem claim_C3_tick_y_never_negative (mu dt : ℝ) (o : Object3D) :
    allYNonneg (o.tick mu dt) :=
  tick_allYNonneg mu dt o

/-- The Euclidean norm of the horizontal (x, z) part of a vector — the
quantity the spec calls the horizontal speed. -/
noncomputable def hnorm (v : Vec3) : ℝ := Real.sqrt (v.x ^ 2 + v.z ^ 2)

/-- On the ground with `velocity.x ≠ 0`, positive mass, and only the
baseline gravity force, the acceleration computed by the net-force phase
is pure kinetic friction: `-38·|mu|` times the horizontal direction. -/
theorem groundAccel_of_moving_x (mu : ℝ) (s : ObjState)
    (hy : s.position.y = 0) (hvx : s.velocity.x ≠ 0) (hm : 0 < s.mass)
    (hf : s.forces = [Vec3.smul s.mass gravityAccel]) :
    (applyNetForce (groundForces mu s)).acceleration =
      ⟨-(38 * |mu|) * s.velocity.x / Real.sqrt (s.velocity.x ^ 2 + s.velocity.z ^ 2), 0,
       -(38 * |mu|) * s.velocity.z / Real.sqrt (s.velocity.x ^ 2 + s.velocity.z ^ 2)⟩ := by
  have hvx2 : 0 < s.velocity.x ^ 2 :=
    lt_of_le_of_ne (sq_nonneg _) (Ne.symm (pow_ne_zero 2 hvx))
  have hsum : 0 < s.velocity.x ^ 2 + s.velocity.z ^ 2 :=
    add_pos_of_pos_of_nonneg hvx2 (sq_nonneg _)
  have hn : 0 < Real.sqrt (s.velocity.x ^ 2 + s.velocity.z ^ 2) := Real.sqrt_pos.mpr hsum
  have hm' : s.mass ≠ 0 := ne_of_gt hm
  have hn' : Real.sqrt (s.velocity.x ^ 2 + s.velocity.z ^ 2) ≠ 0 := ne_of_gt hn
  have hlen : Vec3.length ⟨s.velocity.x, 0, s.velocity.z⟩
      = Real.sqrt (s.velocity.x ^ 2 + s.velocity.z ^ 2) := by
    rw [Vec3.length]
    norm_num
  have habs : |gravityAccel.y * mu| = 38 * |mu| := by
    rw [show gravityAccel.y = -38 from rfl, abs_mul, abs_neg,
      abs_of_nonneg (by norm_num : (0:ℝ) ≤ 38)]
  rw [groundForces, if_pos hy]
  simp only [Vec3.normalize, hlen, habs, addForce_velocity]
  rw [if_neg hvx]
  rw [applyNetForce]
  simp only [addForce_mass]
  rw [if_pos hm]
  simp only [addForce, hf]
  simp only [List.singleton_append, List.cons_append, List.nil_append, List.foldl_cons,
    List.foldl_nil]
  simp only [Vec3.add, Vec3.smul, Vec3.neg, Vec3.sdiv, gravityAccel]
  rcases le_or_lt s.velocity.x 0 with hx | hx
  · have hxneg : s.velocity.x < 0 := lt_of_le_of_ne hx hvx
    have hax : |1 / Real.sqrt (s.velocity.x ^ 2 + s.velocity.z ^ 2) * s.velocity.x|
        = -(1 / Real.sqrt (s.velocity.x ^ 2 + s.velocity.z ^ 2) * s.velocity.x) :=
      abs_of_neg (mul_neg_of_pos_of_neg (by positivity) hxneg)
    rw [if_pos hxneg, hax]
    rcases le_or_lt 0 s.velocity.z with hz | hz
    · have haz : |1 / Real.sqrt (s.velocity.x ^ 2 + s.velocity.z ^ 2) * s.velocity.z|
          = 1 / Real.sqrt (s.velocity.x ^ 2 + s.velocity.z ^ 2) * s.velocity.z :=
        abs_of_nonneg (mul_nonneg (by positivity) hz)
      rw [if_neg (not_lt.mpr hz), haz]
      simp only [Vec3.mk.injEq]
      refine ⟨?_, ?_, ?_⟩ <;> field_simp <;> ring
    · have haz : |1 / Real.sqrt (s.velocity.x ^ 2 + s.velocity.z ^ 2) * s.velocity.z|
          = -(1 / Real.sqrt (s.velocity.x ^ 2 + s.velocity.z ^ 2) * s.velocity.z) :=
        abs_of_neg (mul_neg_of_pos_of_neg (by positivity) hz)
      rw [if_pos hz, haz]
      simp only [Vec3.mk.injEq]
      refine ⟨?_, ?_, ?_⟩ <;> field_simp <;> ring
  · have hax : |1 / Real.sqrt (s.velocity.x ^ 2 + s.velocity.z ^ 2) * s.velocity.x|
        = 1 / Real.sqrt (s.velocity.x ^ 2 + s.velocity.z ^ 2) * s.velocity.x :=
      abs_of_nonneg (mul_nonneg (by positivity) (le_of_lt hx))
    rw [if_neg (not_lt.mpr (le_of_lt hx)), hax]
    rcases le_or_lt 0 s.velocity.z with hz | hz
    · have haz : |1 / Real.sqrt (s.velocity.x ^ 2 + s.velocity.z ^ 2) * s.velocity.z|
          = 1 / Real.sqrt (s.velocity.x ^ 2 + s.velocity.z ^ 2) * s.velocity.z :=
        abs_of_nonneg (mul_nonneg (by positivity) hz)
      rw [if_neg (not_lt.mpr hz), haz]
      simp only [Vec3.mk.injEq]
      refine ⟨?_, ?_, ?_⟩ <;> field_simp <;> ring
    · have haz : |1 / Real.sqrt (s.velocity.x ^ 2 + s.velocity.z ^ 2) * s.velocity.z|
          = -(1 / Real.sqrt (s.velocity.x ^ 2 + s.velocity.z ^ 2) * s.velocity.z) :=
        abs_of_neg (mul_neg_of_pos_of_neg (by positivity) hz)
      rw [if_pos hz, haz]
      simp only [Vec3.mk.injEq]
      refine ⟨?_, ?_, ?_⟩ <;> field_simp <;> ring

/-- On the ground with `velocity.x == 0` the code clears the force list
(friction included), so the net-force phase computes zero acceleration:
gravity and the normal force cancel (positive mass). -/
theorem groundAccel_of_vx_zero (mu : ℝ) (s : ObjState)
    (hy : s.position.y = 0) (hvx : s.velocity.x = 0) (hm : 0 < s.mass) :
    (applyNetForce (groundForces mu s)).acceleration = ⟨0, 0, 0⟩ := by
  rw [groundForces, if_pos hy]
  simp only [addForce_velocity]
  rw [if_pos hvx]
  rw [applyNetForce]
  simp only [addForce_mass, clearForces_mass]
  rw [if_pos hm]
  simp only [addForce, clearForces]
  simp only [List.singleton_append, List.cons_append, List.nil_append, List.foldl_cons,
    List.foldl_nil]
  simp only [Vec3.add, Vec3.smul, Vec3.neg, Vec3.sdiv, gravityAccel]
  simp only [Vec3.mk.injEq]
  refine ⟨?_, ?_, ?_⟩ <;> field_simp

/-- C1 (amended): a grounded node with nonzero horizontal velocity,
positive mass and baseline-only forces does not gain horizontal speed in
one tick, provided the friction impulse does not overshoot:
`38·|MU|·dt ≤ 2·‖(v.x, v.z)‖`. -/
theorem claim_C1_grounded_friction_never_speeds_up (mu dt : ℝ) (s : ObjState)
    (cs : List Object3D)
    (hy : s.position.y = 0)
    (hvh : ¬ (s.velocity.x = 0 ∧ s.velocity.z = 0))
    (hm : 0 < s.mass)
    (hf : s.forces = [Vec3.smul s.mass gravityAccel])
    (hdt : 0 < dt)
    (hbound : 38 * |mu| * dt ≤ 2 * hnorm s.velocity) :
    hnorm ((Object3D.node s cs).tick mu dt).state.velocity ≤ hnorm s.velocity := by
  rw [Object3D.tick]
  show hnorm (tickState mu dt s).velocity ≤ hnorm s.velocity
  rw [tickState_velocity]
  by_cases hvx : s.velocity.x = 0
  · rw [groundAccel_of_vx_zero mu s hy hvx hm]
    simp [hnorm, Vec3.add, Vec3.smul]
  · rw [groundAccel_of_moving_x mu s hy hvx hm hf]
    simp only [hnorm, Vec3.add, Vec3.smul]
    apply Real.sqrt_le_sqrt
    have hvx2 : 0 < s.velocity.x ^ 2 :=
      lt_of_le_of_ne (sq_nonneg _) (Ne.symm (pow_ne_zero 2 hvx))
    have hsum : 0 < s.velocity.x ^ 2 + s.velocity.z ^ 2 :=
      add_pos_of_pos_of_nonneg hvx2 (sq_nonneg _)
    have hn : 0 < Real.sqrt (s.velocity.x ^ 2 + s.velocity.z ^ 2) := Real.sqrt_pos.mpr hsum
    have hk : (0:ℝ) ≤ 38 * |mu| := by positivity
    set n := Real.sqrt (s.velocity.x ^ 2 + s.velocity.z ^ 2) with hndef
    have hc0 : 0 ≤ dt * (38 * |mu|) / n :=
      div_nonneg (mul_nonneg (le_of_lt hdt) hk) (le_of_lt hn)
    have hc2 : dt * (38 * |mu|) / n ≤ 2 := by
      rw [div_le_iff₀ hn]
      calc dt * (38 * |mu|) = 38 * |mu| * dt := by ring
        _ ≤ 2 * hnorm s.velocity := hbound
        _ = 2 * n := rfl
    have harg1 : s.velocity.x + dt * (-(38 * |mu|) * s.velocity.x / n)
        = s.velocity.x * (1 - dt * (38 * |mu|) / n) := by ring
    have harg2 : s.velocity.z + dt * (-(38 * |mu|) * s.velocity.z / n)
        = s.velocity.z * (1 - dt * (38 * |mu|) / n) := by ring
    rw [harg1, harg2]
    have h1c : (1 - dt * (38 * |mu|) / n) ^ 2 ≤ 1 := by
      nlinarith [mul_nonneg hc0 (sub_nonneg.mpr hc2)]
    calc (s.velocity.x * (1 - dt * (38 * |mu|) / n)) ^ 2
          + (s.velocity.z * (1 - dt * (38 * |mu|) / n)) ^ 2
        = (s.velocity.x ^ 2 + s.velocity.z ^ 2) * (1 - dt * (38 * |mu|) / n) ^ 2 := by ring
      _ ≤ (s.velocity.x ^ 2 + s.velocity.z ^ 2) * 1 :=
          mul_le_mul_of_nonneg_left h1c (le_of_lt hsum)
      _ = s.velocity.x ^ 2 + s.velocity.z ^ 2 := by ring

/-- The horizontal speed of the unit-x velocity is 1. -/
theorem hnorm_unit_x : hnorm ⟨1, 0, 0⟩ = 1 := by
  show Real.sqrt ((1:ℝ) ^ 2 + (0:ℝ) ^ 2) = 1
  norm_num [Real.sqrt_one]

/-- Witness for the amended C1 at a concrete grounded, moving node. -/
theorem claim_C1_grounded_friction_never_speeds_up_witness :
    (0:ℝ) < 1/100 ∧
    38 * |(1:ℝ)| * (1/100) ≤ 2 * hnorm (exState ⟨1, 0, 0⟩ 1).velocity ∧
    hnorm ((Object3D.node (exState ⟨1, 0, 0⟩ 1) []).tick 1 (1/100)).state.velocity
      ≤ hnorm (exState ⟨1, 0, 0⟩ 1).velocity := by
  have hb : 38 * |(1:ℝ)| * (1/100) ≤ 2 * hnorm (exState ⟨1, 0, 0⟩ 1).velocity := by
    have h1 : hnorm (exState ⟨1, 0, 0⟩ 1).velocity = 1 := hnorm_unit_x
    rw [h1]
    norm_num
  exact ⟨by norm_num, hb,
    claim_C1_grounded_friction_never_speeds_up 1 (1/100) _ []
      rfl (fun h => one_ne_zero h.1) one_pos rfl (by norm_num) hb⟩

/-- Counterexample to C1 as stated: at `MU = 1`, a grounded node with
velocity `(1,0,0)`, mass 1 and baseline forces, a tick with `dt = 1`
changes the velocity to `(-37,0,0)` — the friction impulse overshoots and
the horizontal speed grows from 1 to 37. -/
theorem claim_C1_counterexample :
    ¬ (hnorm ((Object3D.node (exState ⟨1, 0, 0⟩ 1) []).tick 1 1).state.velocity
        ≤ hnorm (exState ⟨1, 0, 0⟩ 1).velocity) := by
  have hacc : (applyNetForce (groundForces 1 (exState ⟨1, 0, 0⟩ 1))).acceleration
      = ⟨-38, 0, 0⟩ := by
    rw [groundAccel_of_moving_x 1 _ rfl (fun h => one_ne_zero h) one_pos rfl]
    simp only [Vec3.mk.injEq]
    norm_num [exState, Real.sqrt_one]
  have hvel : ((Object3D.node (exState ⟨1, 0, 0⟩ 1) []).tick 1 1).state.velocity
      = ⟨-37, 0, 0⟩ := by
    rw [Object3D.tick]
    show (tickState 1 1 (exState ⟨1, 0, 0⟩ 1)).velocity = ⟨-37, 0, 0⟩
    rw [tickState_velocity, hacc]
    simp only [Vec3.add, Vec3.smul, Vec3.mk.injEq, exState]
    norm_num
  rw [hvel]
  have h37 : hnorm ⟨-37, 0, 0⟩ = 37 := by
    show Real.sqrt ((-37:ℝ) ^ 2 + (0:ℝ) ^ 2) = 37
    rw [show ((-37:ℝ) ^ 2 + (0:ℝ) ^ 2) = 37 ^ 2 by norm_num]
    exact Real.sqrt_sq (by norm_num)
  have h1 : hnorm (exState ⟨1, 0, 0⟩ 1).velocity = 1 := hnorm_unit_x
  rw [h37, h1]
  norm_num

/-- C2 (code bug evaluation): a grounded node with velocity `(0,0,1)` —
horizontal velocity nonzero in z — still has its friction force thrown
away, because the reset at `Object3D.cpp` line 168 tests only
`velocity.x == 0`: the tick leaves the velocity at `(0,0,1)` and computes
zero acceleration, i.e. no friction was retained for the net-force sum. -/
theorem claim_C2_x_only_reset_eval :
    ((Object3D.node (exState ⟨0, 0, 1⟩ 1) []).tick 1 1).state.velocity = ⟨0, 0, 1⟩ ∧
    ((Object3D.node (exState ⟨0, 0, 1⟩ 1) []).tick 1 1).state.acceleration = ⟨0, 0, 0⟩ := by
  have hacc : (applyNetForce (groundForces 1 (exState ⟨0, 0, 1⟩ 1))).acceleration
      = ⟨0, 0, 0⟩ := groundAccel_of_vx_zero 1 _ rfl rfl one_pos
  constructor
  · rw [Object3D.tick]
    show (tickState 1 1 (exState ⟨0, 0, 1⟩ 1)).velocity = ⟨0, 0, 1⟩
    rw [tickState_velocity, hacc]
    simp only [Vec3.add, Vec3.smul, Vec3.mk.injEq, exState]
    norm_num
  · rw [Object3D.tick]
    show (tickState 1 1 (exState ⟨0, 0, 1⟩ 1)).acceleration = ⟨0, 0, 0⟩
    rw [tickState_acceleration, hacc]

/-- C8 (counterexample): constructing with an empty mesh list does not
fail — it produces a node whose mesh list is empty, refuting "either the
primitive list is non-empty and a node is produced, or construction fails
fast". -/
theorem claim_C8_counterexample : ¬ ((mkObject3D [] 1).state.meshes ≠ []) :=
  fun h => h rfl

/-- C8 (amended): the constructor is total and performs no emptiness
check: for any mesh list (empty included) it produces a fully formed node
holding exactly that list, the given base transform, default mass 1, the
baseline gravity force, and no children.  Only the argumentless default
constructor is disallowed (deleted at compile time, `Object3D.h` 42). -/
theorem claim_C8_construction_is_total (meshes : List Mesh3D) (bt : Mat4) :
    (mkObject3D meshes bt).state.meshes = meshes ∧
    (mkObject3D meshes bt).state.mass = 1 ∧
    (mkObject3D meshes bt).state.forces = [Vec3.smul 1 gravityAccel] ∧
    (mkObject3D meshes bt).state.baseTransform = bt ∧
    (mkObject3D meshes bt).children = [] :=
  ⟨rfl, rfl, rfl, rfl, rfl⟩

/-- `Object3D::move` (`Object3D.cpp` 204–206): add the offset to the
position. -/
def ObjState.move (s : ObjState) (offset : Vec3) : ObjState :=
  { s with position := s.position.add offset }

/-- Modelled from the spec: the `Animation` base class (`Animation.h`) is
not under `src/`.  Per spec §3/§4.2 an animation carries a total duration
(seconds) and the elapsed running time, and is *finished* once
`elapsed ≥ duration`.  The `perSecond` rate field and its value
`totalTranslation / duration` come from `TranslationAnimation.h` line 27. -/
structure TranslationAnimation where
  duration : ℝ
  elapsedTime : ℝ
  perSecond : Vec3

/-- Modelled from the spec: construction requires `duration > 0`; a zero
or negative duration is a fatal construction-time error, surfaced here as
`none`.  On success the per-second rate is `totalTranslation / duration`
(`TranslationAnimation.h` line 27) and no time has elapsed. -/
noncomputable def mkTranslationAnimation (duration : ℝ) (totalTranslation : Vec3) :
    Option TranslationAnimation :=
  if duration ≤ 0 then none
  else some ⟨duration, 0, Vec3.sdiv totalTranslation duration⟩

/-- The *finished* state: elapsed time has reached the duration. -/
def TranslationAnimation.finished (a : TranslationAnimation) : Prop :=
  a.duration ≤ a.elapsedTime

/-- Modelled from the spec: `advance(dt)` is a no-op when finished;
otherwise it applies the variant's change — for a Translation,
`object().move(m_perSecond * dt)` (`TranslationAnimation.h` 17–19) — and
then adds `dt` to the elapsed time. -/
noncomputable def TranslationAnimation.advance (a : TranslationAnimation) (target : ObjState)
    (dt : ℝ) : TranslationAnimation × ObjState :=
  if a.duration ≤ a.elapsedTime then (a, target)
  else (⟨a.duration, a.elapsedTime + dt, a.perSecond⟩,
    target.move (Vec3.smul dt a.perSecond))

/-- C9: constructing a Translation animation with duration ≤ 0 fails fast;
with duration > 0 it succeeds with rate `totalTranslation / duration`, and
each advance while running moves the target by `rate * dt` via the
target's move mutator. -/
theorem claim_C9_translation_animation_contract (d : ℝ) (total : Vec3) :
    (d ≤ 0 → mkTranslationAnimation d total = none) ∧
    (0 < d → mkTranslationAnimation d total = some ⟨d, 0, Vec3.sdiv total d⟩) ∧
    (∀ (a : TranslationAnimation) (s : ObjState) (dt : ℝ),
      ¬ a.finished →
      (a.advance s dt).2.position = s.position.add (Vec3.smul dt a.perSecond) ∧
      (a.advance s dt).1.elapsedTime = a.elapsedTime + dt) := by
  refine ⟨?_, ?_, ?_⟩
  · intro h
    rw [mkTranslationAnimation, if_pos h]
  · intro h
    rw [mkTranslationAnimation, if_neg (not_le.mpr h)]
  · intro a s dt hfin
    simp only [TranslationAnimation.finished] at hfin
    rw [TranslationAnimation.advance, if_neg hfin]
    exact ⟨rfl, rfl⟩

/-- Witness for C9 at duration 2 and total translation `(4,0,0)`. -/
theorem claim_C9_translation_animation_contract_witness :
    (0:ℝ) < 2 ∧
    mkTranslationAnimation 2 ⟨4, 0, 0⟩ = some ⟨2, 0, Vec3.sdiv ⟨4, 0, 0⟩ 2⟩ ∧
    ¬ (⟨2, 0, Vec3.sdiv ⟨4, 0, 0⟩ 2⟩ : TranslationAnimation).finished ∧
    ((⟨2, 0, Vec3.sdiv ⟨4, 0, 0⟩ 2⟩ : TranslationAnimation).advance
        (exState ⟨0, 0, 0⟩ 1) 1).2.position
      = (exState ⟨0, 0, 0⟩ 1).position.add (Vec3.smul 1 (Vec3.sdiv ⟨4, 0, 0⟩ 2)) := by
  have hfin : ¬ (⟨2, 0, Vec3.sdiv ⟨4, 0, 0⟩ 2⟩ : TranslationAnimation).finished := by
    simp only [TranslationAnimation.finished]
    norm_num
  exact ⟨by norm_num,
    (claim_C9_translation_animation_contract 2 ⟨4, 0, 0⟩).2.1 (by norm_num), hfin,
    ((claim_C9_translation_animation_contract 2 ⟨4, 0, 0⟩).2.2 _ _ 1 hfin).1⟩

/-- The 4×4 homogeneous translation matrix (the matrix glm `translate`
multiplies onto its argument). -/
def translateMat (v : Vec3) : Mat4 :=
  !![1, 0, 0, v.x; 0, 1, 0, v.y; 0, 0, 1, v.z; 0, 0, 0, 1]

/-- The 4×4 homogeneous scale matrix (the matrix glm `scale` multiplies
onto its argument). -/
def scaleMat (v : Vec3) : Mat4 :=
  !![v.x, 0, 0, 0; 0, v.y, 0, 0; 0, 0, v.z, 0; 0, 0, 0, 1]

/-- The 4×4 homogeneous rotation matrix glm `rotate` multiplies onto its
argument: the Rodrigues rotation by `theta` about the normalized axis. -/
noncomputable def rotateMat (theta : ℝ) (v : Vec3) : Mat4 :=
  let c := Real.cos theta
  let s := Real.sin theta
  let u := v.normalize
  !![c + (1 - c) * u.x * u.x, (1 - c) * u.y * u.x - s * u.z, (1 - c) * u.z * u.x + s * u.y, 0;
     (1 - c) * u.x * u.y + s * u.z, c + (1 - c) * u.y * u.y, (1 - c) * u.z * u.y - s * u.x, 0;
     (1 - c) * u.x * u.z - s * u.y, (1 - c) * u.y * u.z + s * u.x, c + (1 - c) * u.z * u.z, 0;
     0, 0, 0, 1]

/-- glm `translate(m, v) = m * T(v)`. -/
noncomputable def glmTranslate (m : Mat4) (v : Vec3) : Mat4 := m * translateMat v

/-- glm `rotate(m, angle, axis) = m * R(angle, axis)`. -/
noncomputable def glmRotate (m : Mat4) (theta : ℝ) (axis : Vec3) : Mat4 :=
  m * rotateMat theta axis

/-- glm `scale(m, v) = m * S(v)`. -/
noncomputable def glmScale (m : Mat4) (v : Vec3) : Mat4 := m * scaleMat v

/-- `Object3D::buildModelMatrix` (`Object3D.cpp` 5–15): starting from the
identity — translate to the position, translate by `center * scale`,
rotate about Z by `orientation[2]`, about X by `orientation[0]`, about Y
by `orientation[1]`, scale, translate by `-center`, then post-multiply by
the base transform. -/
noncomputable def buildModelMatrix (s : ObjState) : Mat4 :=
  let m := glmTranslate 1 s.position
  let m := glmTranslate m (Vec3.hadamard s.center s.scale)
  let m := glmRotate m s.orientation.z ⟨0, 0, 1⟩
  let m := glmRotate m s.orientation.x ⟨1, 0, 0⟩
  let m := glmRotate m s.orientation.y ⟨0, 1, 0⟩
  let m := glmScale m s.scale
  let m := glmTranslate m (Vec3.neg s.center)
  m * s.baseTransform

/-- Translating by the zero vector is the identity matrix. -/
theorem translateMat_zero : translateMat ⟨0, 0, 0⟩ = 1 := by
  ext i j
  fin_cases i <;> fin_cases j <;>
    simp [translateMat, Matrix.one_apply, Matrix.vecHead, Matrix.vecTail]

/-- Scaling by `(1,1,1)` is the identity matrix. -/
theorem scaleMat_one : scaleMat ⟨1, 1, 1⟩ = 1 := by
  ext i j
  fin_cases i <;> fin_cases j <;>
    simp [scaleMat, Matrix.one_apply, Matrix.vecHead, Matrix.vecTail]

/-- Rotating by angle 0 about any axis is the identity matrix. -/
theorem rotateMat_zero (v : Vec3) : rotateMat 0 v = 1 := by
  ext i j
  fin_cases i <;> fin_cases j <;>
    simp [rotateMat, Matrix.one_apply, Real.cos_zero, Real.sin_zero, Matrix.vecHead,
      Matrix.vecTail]

/-- Composition of translations is translation by the sum. -/
theorem translateMat_mul (a b : Vec3) :
    translateMat a * translateMat b = translateMat (a.add b) := by
  ext i j
  fin_cases i <;> fin_cases j <;>
    simp [translateMat, Vec3.add, Matrix.mul_apply, Fin.sum_univ_four, Matrix.vecHead,
      Matrix.vecTail] <;>
    ring

/-- A node state that differs from the defaults only in its position:
identity orientation, unit scale, zero center, identity base transform. -/
def posState (p : Vec3) : ObjState := { exState ⟨0, 0, 0⟩ 1 with position := p }

/-- For a pure-position state the model matrix is the pure translation. -/
theorem buildModelMatrix_posState (p : Vec3) :
    buildModelMatrix (posState p) = translateMat p := by
  simp only [buildModelMatrix, glmTranslate, glmRotate, glmScale]
  norm_num [posState, exState, Vec3.hadamard, Vec3.neg, translateMat_zero, scaleMat_one,
    rotateMat_zero]

/-- C6: `localTransform` is the product, in this exact order, of
translation by the position, translation by `center * scale`, rotation
about Z, rotation about X, rotation about Y, scaling, translation by
`-center`, post-multiplied by the base transform; and for position
`(1,0,0)` with identity orientation/scale/center/base it is exactly the
pure translation by `(1,0,0)`. -/
theorem claim_C6_localTransform_order (st : ObjState) :
    (buildModelMatrix st
      = translateMat st.position * translateMat (Vec3.hadamard st.center st.scale)
        * rotateMat st.orientation.z ⟨0, 0, 1⟩ * rotateMat st.orientation.x ⟨1, 0, 0⟩
        * rotateMat st.orientation.y ⟨0, 1, 0⟩ * scaleMat st.scale
        * translateMat (Vec3.neg st.center) * st.baseTransform)
    ∧ buildModelMatrix (posState ⟨1, 0, 0⟩) = translateMat ⟨1, 0, 0⟩ := by
  constructor
  · simp only [buildModelMatrix, glmTranslate, glmRotate, glmScale, one_mul]
  · exact buildModelMatrix_posState ⟨1, 0, 0⟩

mutual

/-- `Object3D::renderRecursive` (`Object3D.cpp` 228–240), abstracted to
the sequence of model matrices published to the shader (`setUniform`
calls, in order): the node publishes `parentMatrix * buildModelMatrix()`
for its own meshes, then each child recurses with that composed matrix. -/
noncomputable def renderTrace : Object3D → Mat4 → List Mat4
  | .node s cs, parentMatrix =>
    let trueModel := parentMatrix * buildModelMatrix s
    trueModel :: renderTraceList cs trueModel

/-- The `for (auto& child : m_children)` loop of `renderRecursive`. -/
noncomputable def renderTraceList : List Object3D → Mat4 → List Mat4
  | [], _ => []
  | c :: cs, m => renderTrace c m ++ renderTraceList cs m

end

theorem renderTraceList_eq_bind (m : Mat4) :
    ∀ cs : List Object3D, renderTraceList cs m = cs.flatMap (fun c => renderTrace c m)
  | [] => by rw [renderTraceList]; rfl
  | c :: cs => by
    rw [renderTraceList, renderTraceList_eq_bind m cs, List.flatMap_cons]

/-- A parent translated by `(2,0,0)` owning one child at local position
`(1,0,0)`, everything else identity. -/
noncomputable def exC7Parent : Object3D :=
  Object3D.node (posState ⟨2, 0, 0⟩) [Object3D.node (posState ⟨1, 0, 0⟩) []]

/-- C7: `renderRecursive` publishes `P * localTransform()` as the model
matrix for the node's own primitives and recurses into each child with
that same composed matrix; consequently the child of `exC7Parent` is
rendered with the world transform translating by `(3,0,0)`. -/
theorem claim_C7_renderRecursive_composition :
    (∀ (s : ObjState) (cs : List Object3D) (P : Mat4),
      renderTrace (Object3D.node s cs) P
        = (P * buildModelMatrix s)
            :: cs.flatMap (fun c => renderTrace c (P * buildModelMatrix s)))
    ∧ renderTrace exC7Parent 1 = [translateMat ⟨2, 0, 0⟩, translateMat ⟨3, 0, 0⟩] := by
  constructor
  · intro s cs P
    rw [renderTrace, renderTraceList_eq_bind]
  · simp only [exC7Parent, renderTrace, renderTraceList, buildModelMatrix_posState, one_mul,
      translateMat_mul, List.nil_append, List.append_nil]
    norm_num [Vec3.add]
